import Mathlib

/-!
# Verification of the Neon Panda chatbot core

Shallow embedding of the conversation-state tracker, the retrieval /
generation pipelines and the web-chat route of the repository, together
with proofs and refutations of the specified properties.

The state machine is taken from the WhatsApp auto-responder
(`decideNextState`, `detectReset`, `DEFAULT_STATE`); the pipelines from
the two `generateAutoResponse` variants and the two chat-route `POST`
handlers.
-/

namespace NeonPanda

/-! ## String helpers

JavaScript string operations (`toLowerCase`, `includes`, `trim`,
truthiness, the regexes `\b\d+\b` and `\d{2}\/\d{2}\/\d{4}`) modelled on
`List Char`.  The source only ever lowercases ASCII user text, matching
`Char.toLower`. -/

/-- `charsStartWith s pat` is true when `pat` is a prefix of `s`. -/
def charsStartWith : List Char → List Char → Bool
  | _, [] => true
  | [], _ :: _ => false
  | c :: cs, d :: ds => c == d && charsStartWith cs ds

/-- `charsContain s pat`: does `pat` occur as a contiguous substring of `s`?
Models JavaScript `String.prototype.includes`. -/
def charsContain : List Char → List Char → Bool
  | [], pat => pat.isEmpty
  | c :: rest, pat => charsStartWith (c :: rest) pat || charsContain rest pat

/-- JavaScript `s.includes(pat)`. -/
def strContains (s pat : String) : Bool :=
  charsContain s.data pat.data

/-- JavaScript `s.toLowerCase()` on ASCII text. -/
def strToLower (s : String) : String :=
  ⟨s.data.map Char.toLower⟩

/-- JavaScript `s.trim()` (ASCII whitespace). -/
def strTrim (s : String) : String :=
  ⟨((s.data.dropWhile Char.isWhitespace).reverse.dropWhile Char.isWhitespace).reverse⟩

/-- JavaScript truthiness of a nullable string: `null` and `""` are falsy. -/
def truthyStr : Option String → Bool
  | none => false
  | some s => s ≠ ""

/-- JavaScript truthiness of a nullable number: `null` and `0` are falsy. -/
def truthyNat : Option Nat → Bool
  | none => false
  | some n => n ≠ 0

/-- JavaScript `a || b` on nullable strings: first truthy value, else `b`. -/
def strOrElse (a : Option String) (b : String) : String :=
  match a with
  | none => b
  | some s => if s = "" then b else s

/-- A word character in the sense of the regex `\b` boundary: `[A-Za-z0-9_]`. -/
def isWordChar (c : Char) : Bool :=
  c.isAlphanum || c == '_'

/-- Numeric value of a digit string (what JavaScript `Number` returns on it). -/
def digitsVal (l : List Char) : Nat :=
  l.foldl (fun a c => a * 10 + (c.toNat - 48)) 0

/-- Split off the maximal leading run of decimal digits. -/
def takeDigits : List Char → List Char × List Char
  | [] => ([], [])
  | c :: cs =>
    if c.isDigit then
      let p := takeDigits cs
      (c :: p.1, p.2)
    else ([], c :: cs)

/-- First match of the regex `\b\d+\b`, as its numeric value.  `prev` says
whether the character before the current position is a word character (so
that the initial call passes `false`).  A digit run followed by a word
character has no boundary after it and is skipped, exactly as the regex
engine does. -/
def findBareNum : Bool → List Char → Option Nat
  | _, [] => none
  | prev, c :: cs =>
    if c.isDigit && !prev then
      let p := takeDigits (c :: cs)
      match p.2 with
      | [] => some (digitsVal p.1)
      | r :: _ => if isWordChar r then findBareNum (isWordChar c) cs else some (digitsVal p.1)
    else
      findBareNum (isWordChar c) cs

/-- Does the pattern `\d{2}\/\d{2}\/\d{4}` match at the head of the list? -/
def dateLitAt : List Char → Bool
  | a :: b :: s1 :: c :: d :: s2 :: e :: f :: g :: h :: _ =>
    a.isDigit && b.isDigit && s1 == '/' && c.isDigit && d.isDigit && s2 == '/' &&
      e.isDigit && f.isDigit && g.isDigit && h.isDigit
  | _ => false

/-- Does `\d{2}\/\d{2}\/\d{4}` match anywhere in the list? -/
def hasDateLit : List Char → Bool
  | [] => false
  | c :: rest => dateLitAt (c :: rest) || hasDateLit rest

/-! ## Conversation state (`ConversationState`, `DEFAULT_STATE`) -/

/-- The `stage` union type of the source. -/
inductive Stage where
  | INIT
  | ACTIVITY_SELECTED
  | DETAILS
  | CONFIRM
deriving DecidableEq, Repr

/-- `ConversationState` of the auto-responder. -/
structure ConversationState where
  stage : Stage
  activity : Option String
  sub_activity : Option String
  group_size : Option Nat
  date : Option String
  time : Option String
  pending_fields : List String
deriving DecidableEq, Repr

/-- `DEFAULT_STATE` of the auto-responder. -/
def DEFAULT_STATE : ConversationState :=
  { stage := Stage.INIT
    activity := none
    sub_activity := none
    group_size := none
    date := none
    time := none
    pending_fields := [] }

/-- `detectReset`: case-insensitive substring match of the fixed reset
vocabulary (the caller passes already-lowercased text). -/
def detectReset (text : String) : Bool :=
  ["restart", "start again", "menu", "reset"].any (fun w => strContains text w)

/-! ## `decideNextState`, split into its five extraction rules plus the
final CONFIRM check, applied in source order. -/

/-- Rule 1: `if (!state.activity && text.includes("vr"))`. -/
def stepActivity (text : String) (s : ConversationState) : ConversationState :=
  if !truthyStr s.activity && strContains text "vr" then
    { s with activity := some "VR Games"
             stage := Stage.ACTIVITY_SELECTED
             pending_fields := ["group_size", "date", "time"] }
  else s

/-- Rule 2: `if (state.activity === "VR Games" && text.includes("racing"))`. -/
def stepSub (text : String) (s : ConversationState) : ConversationState :=
  if s.activity = some "VR Games" && strContains text "racing" then
    { s with sub_activity := some "VR Racing" }
  else s

/-- Rule 3: first bare integer fills `group_size` if that slot is falsy. -/
def stepNum (text : String) (s : ConversationState) : ConversationState :=
  match findBareNum false text.data with
  | some n =>
    if !truthyNat s.group_size then
      { s with group_size := some n
               pending_fields := s.pending_fields.filter (fun f => f ≠ "group_size") }
    else s
  | none => s

/-- Rule 4: an `am`/`pm` marker fills `time` (with the raw text) if falsy. -/
def stepTime (text userText : String) (s : ConversationState) : ConversationState :=
  if (strContains text "pm" || strContains text "am") && !truthyStr s.time then
    { s with time := some userText
             pending_fields := s.pending_fields.filter (fun f => f ≠ "time") }
  else s

/-- Rule 5: a date token fills `date` (with the raw text); the source has
no `!state.date` guard here. -/
def stepDate (text userText : String) (s : ConversationState) : ConversationState :=
  if strContains text "today" || strContains text "saturday" || hasDateLit text.data then
    { s with date := some userText
             pending_fields := s.pending_fields.filter (fun f => f ≠ "date") }
  else s

/-- Final check: `if (state.activity && state.pending_fields.length === 0)`. -/
def stepConfirm (s : ConversationState) : ConversationState :=
  if truthyStr s.activity && s.pending_fields.isEmpty then
    { s with stage := Stage.CONFIRM }
  else s

/-- `decideNextState(prev, userText)`: the five ordered extraction rules on
the lowercased text, then the CONFIRM check. -/
def decideNextState (prev : ConversationState) (userText : String) : ConversationState :=
  let text := strToLower userText
  stepConfirm (stepDate text userText (stepTime text userText
    (stepNum text (stepSub text (stepActivity text prev)))))

/-- The state-update step of the auto-responder (step 4 of
`generateAutoResponse`): reset check first, otherwise `decideNextState`. -/
def transition (state : ConversationState) (finalUserText : String) : ConversationState :=
  if detectReset (strToLower finalUserText) then DEFAULT_STATE
  else decideNextState state finalUserText

/-- States reachable from `DEFAULT_STATE` by a sequence of transitions. -/
inductive Reachable : ConversationState → Prop where
  | init : Reachable DEFAULT_STATE
  | step (s : ConversationState) (t : String) : Reachable s → Reachable (transition s t)

/-! ## Invariants of the state machine -/

/-- Required-slot list per activity: the only activity the engine knows is
`"VR Games"`, whose required slots are those it initialises
`pending_fields` with. -/
def requiredSlots : Option String → List String
  | some a => if a = "VR Games" then ["group_size", "date", "time"] else []
  | none => []

/-- A slot name is filled in a state when the corresponding field holds a
value. -/
def slotFilled (s : ConversationState) (f : String) : Bool :=
  if f = "group_size" then s.group_size.isSome
  else if f = "date" then s.date.isSome
  else if f = "time" then s.time.isSome
  else false

/-- Invariant that holds between the extraction rules: activity is absent
or `"VR Games"`; no pending slots without an activity; `pending_fields`
lies inside the required slots and contains every unfilled required slot;
and a CONFIRM stage certifies a set activity with nothing pending. -/
def WeakInv (s : ConversationState) : Prop :=
  (s.activity = none ∨ s.activity = some "VR Games") ∧
  (s.activity = none → s.pending_fields = []) ∧
  (∀ f ∈ s.pending_fields, f ∈ requiredSlots s.activity) ∧
  (∀ f ∈ requiredSlots s.activity, slotFilled s f = false → f ∈ s.pending_fields) ∧
  (s.stage = Stage.CONFIRM → s.activity ≠ none ∧ s.pending_fields = [])

/-- Invariant of the states the engine returns: `WeakInv` strengthened to
the biconditional `stage = CONFIRM ↔ activity set ∧ nothing pending`. -/
def StateInv (s : ConversationState) : Prop :=
  (s.activity = none ∨ s.activity = some "VR Games") ∧
  (s.activity = none → s.pending_fields = []) ∧
  (∀ f ∈ s.pending_fields, f ∈ requiredSlots s.activity) ∧
  (∀ f ∈ requiredSlots s.activity, slotFilled s f = false → f ∈ s.pending_fields) ∧
  (s.stage = Stage.CONFIRM ↔ s.activity ≠ none ∧ s.pending_fields = [])

theorem stateInv_weakInv {s : ConversationState} (h : StateInv s) : WeakInv s :=
  ⟨h.1, h.2.1, h.2.2.1, h.2.2.2.1, fun hc => h.2.2.2.2.mp hc⟩

theorem requiredSlots_vr : requiredSlots (some "VR Games") = ["group_size", "date", "time"] := by
  decide

theorem slotFilled_gs (s : ConversationState) : slotFilled s "group_size" = s.group_size.isSome :=
  rfl

theorem slotFilled_date (s : ConversationState) : slotFilled s "date" = s.date.isSome :=
  rfl

theorem slotFilled_time (s : ConversationState) : slotFilled s "time" = s.time.isSome :=
  rfl

theorem truthy_not_vr {a : Option String} (h : truthyStr a = false) : a ≠ some "VR Games" := by
  intro he
  subst he
  exact absurd h (by decide)

theorem invDefault : StateInv DEFAULT_STATE := by
  unfold StateInv
  decide

theorem truthy_ne_none {a : Option String} (h : truthyStr a = true) : a ≠ none := by
  intro he
  subst he
  exact absurd h (by decide)

theorem stepActivity_inv (text : String) {s : ConversationState} (h : WeakInv s) :
    WeakInv (stepActivity text s) := by
  obtain ⟨h1, h2, h3, h4, h5⟩ := h
  unfold stepActivity
  split
  · refine ⟨Or.inr rfl, by simp, ?_, ?_, by simp⟩
    · intro f hf
      simpa [requiredSlots] using hf
    · intro f hf _
      simpa [requiredSlots] using hf
  · exact ⟨h1, h2, h3, h4, h5⟩

theorem stepSub_inv (text : String) {s : ConversationState} (h : WeakInv s) :
    WeakInv (stepSub text s) := by
  unfold stepSub
  split
  · exact h
  · exact h

theorem stepNum_inv (text : String) {s : ConversationState} (h : WeakInv s) :
    WeakInv (stepNum text s) := by
  obtain ⟨h1, h2, h3, h4, h5⟩ := h
  unfold stepNum
  split
  · split
    · refine ⟨h1, ?_, ?_, ?_, ?_⟩
      · intro ha
        simp [h2 ha]
      · intro f hf
        exact h3 f (List.mem_of_mem_filter hf)
      · intro f hf hfill
        rcases h1 with ha | ha
        · rw [ha, requiredSlots] at hf
          simp at hf
        · rw [ha, requiredSlots_vr] at hf
          simp only [List.mem_cons, List.not_mem_nil, or_false] at hf
          rcases hf with rfl | rfl | rfl
          · simp [slotFilled_gs] at hfill
          · rw [slotFilled_date] at hfill
            have hm := h4 "date" (by rw [ha, requiredSlots_vr]; simp) (by rw [slotFilled_date]; exact hfill)
            simp only [List.mem_filter]
            exact ⟨hm, by decide⟩
          · rw [slotFilled_time] at hfill
            have hm := h4 "time" (by rw [ha, requiredSlots_vr]; simp) (by rw [slotFilled_time]; exact hfill)
            simp only [List.mem_filter]
            exact ⟨hm, by decide⟩
      · intro hst
        obtain ⟨hne, hpe⟩ := h5 hst
        simp [hpe, hne]
    · exact ⟨h1, h2, h3, h4, h5⟩
  · exact ⟨h1, h2, h3, h4, h5⟩

theorem stepTime_inv (text userText : String) {s : ConversationState} (h : WeakInv s) :
    WeakInv (stepTime text userText s) := by
  obtain ⟨h1, h2, h3, h4, h5⟩ := h
  unfold stepTime
  split
  · refine ⟨h1, ?_, ?_, ?_, ?_⟩
    · intro ha
      simp [h2 ha]
    · intro f hf
      exact h3 f (List.mem_of_mem_filter hf)
    · intro f hf hfill
      rcases h1 with ha | ha
      · rw [ha, requiredSlots] at hf
        simp at hf
      · rw [ha, requiredSlots_vr] at hf
        simp only [List.mem_cons, List.not_mem_nil, or_false] at hf
        rcases hf with rfl | rfl | rfl
        · rw [slotFilled_gs] at hfill
          have hm := h4 "group_size" (by rw [ha, requiredSlots_vr]; simp) (by rw [slotFilled_gs]; exact hfill)
          simp only [List.mem_filter]
          exact ⟨hm, by decide⟩
        · rw [slotFilled_date] at hfill
          have hm := h4 "date" (by rw [ha, requiredSlots_vr]; simp) (by rw [slotFilled_date]; exact hfill)
          simp only [List.mem_filter]
          exact ⟨hm, by decide⟩
        · simp [slotFilled_time] at hfill
    · intro hst
      obtain ⟨hne, hpe⟩ := h5 hst
      simp [hpe, hne]
  · exact ⟨h1, h2, h3, h4, h5⟩

theorem stepDate_inv (text userText : String) {s : ConversationState} (h : WeakInv s) :
    WeakInv (stepDate text userText s) := by
  obtain ⟨h1, h2, h3, h4, h5⟩ := h
  unfold stepDate
  split
  · refine ⟨h1, ?_, ?_, ?_, ?_⟩
    · intro ha
      simp [h2 ha]
    · intro f hf
      exact h3 f (List.mem_of_mem_filter hf)
    · intro f hf hfill
      rcases h1 with ha | ha
      · rw [ha, requiredSlots] at hf
        simp at hf
      · rw [ha, requiredSlots_vr] at hf
        simp only [List.mem_cons, List.not_mem_nil, or_false] at hf
        rcases hf with rfl | rfl | rfl
        · rw [slotFilled_gs] at hfill
          have hm := h4 "group_size" (by rw [ha, requiredSlots_vr]; simp) (by rw [slotFilled_gs]; exact hfill)
          simp only [List.mem_filter]
          exact ⟨hm, by decide⟩
        · simp [slotFilled_date] at hfill
        · rw [slotFilled_time] at hfill
          have hm := h4 "time" (by rw [ha, requiredSlots_vr]; simp) (by rw [slotFilled_time]; exact hfill)
          simp only [List.mem_filter]
          exact ⟨hm, by decide⟩
    · intro hst
      obtain ⟨hne, hpe⟩ := h5 hst
      simp [hpe, hne]
  · exact ⟨h1, h2, h3, h4, h5⟩

theorem stepConfirm_inv {s : ConversationState} (h : WeakInv s) : StateInv (stepConfirm s) := by
  obtain ⟨h1, h2, h3, h4, h5⟩ := h
  unfold stepConfirm
  split
  · next hc =>
    rw [Bool.and_eq_true] at hc
    obtain ⟨hta, hpe⟩ := hc
    refine ⟨h1, h2, h3, h4, ?_⟩
    constructor
    · intro _
      exact ⟨truthy_ne_none hta, by simpa using hpe⟩
    · intro _
      rfl
  · next hc =>
    refine ⟨h1, h2, h3, h4, ?_⟩
    constructor
    · exact h5
    · rintro ⟨hne, hpe⟩
      exfalso
      apply hc
      rcases h1 with ha | ha
      · exact absurd ha hne
      · rw [ha, hpe]
        decide

theorem decideNextState_inv {s : ConversationState} (t : String) (h : WeakInv s) :
    StateInv (decideNextState s t) := by
  unfold decideNextState
  exact stepConfirm_inv (stepDate_inv _ _ (stepTime_inv _ _ (stepNum_inv _
    (stepSub_inv _ (stepActivity_inv _ h)))))

theorem transition_inv {s : ConversationState} (t : String) (h : WeakInv s) :
    StateInv (transition s t) := by
  unfold transition
  split
  · exact invDefault
  · exact decideNextState_inv t h

theorem reachable_stateInv {s : ConversationState} (h : Reachable s) : StateInv s := by
  induction h with
  | init => exact invDefault
  | step s t _ ih => exact transition_inv t (stateInv_weakInv ih)

/-! ## Frame lemmas for the extraction rules -/

theorem stepActivity_group (text : String) (s : ConversationState) :
    (stepActivity text s).group_size = s.group_size := by
  unfold stepActivity
  split <;> rfl

theorem stepActivity_time (text : String) (s : ConversationState) :
    (stepActivity text s).time = s.time := by
  unfold stepActivity
  split <;> rfl

theorem stepSub_activity (text : String) (s : ConversationState) :
    (stepSub text s).activity = s.activity := by
  unfold stepSub
  split <;> rfl

theorem stepSub_group (text : String) (s : ConversationState) :
    (stepSub text s).group_size = s.group_size := by
  unfold stepSub
  split <;> rfl

theorem stepSub_time (text : String) (s : ConversationState) :
    (stepSub text s).time = s.time := by
  unfold stepSub
  split <;> rfl

theorem stepSub_pending (text : String) (s : ConversationState) :
    (stepSub text s).pending_fields = s.pending_fields := by
  unfold stepSub
  split <;> rfl

theorem stepNum_activity (text : String) (s : ConversationState) :
    (stepNum text s).activity = s.activity := by
  unfold stepNum
  split
  · split <;> rfl
  · rfl

theorem stepNum_time (text : String) (s : ConversationState) :
    (stepNum text s).time = s.time := by
  unfold stepNum
  split
  · split <;> rfl
  · rfl

theorem stepNum_group_truthy (text : String) {s : ConversationState}
    (h : truthyNat s.group_size = true) : (stepNum text s).group_size = s.group_size := by
  unfold stepNum
  split
  · split
    · next hc => simp [h] at hc
    · rfl
  · rfl

theorem stepNum_pending_subset (text : String) (s : ConversationState) :
    (stepNum text s).pending_fields ⊆ s.pending_fields := by
  unfold stepNum
  split
  · split
    · exact fun a ha => List.mem_of_mem_filter ha
    · exact List.Subset.refl _
  · exact List.Subset.refl _

theorem stepTime_activity (text userText : String) (s : ConversationState) :
    (stepTime text userText s).activity = s.activity := by
  unfold stepTime
  split <;> rfl

theorem stepTime_group (text userText : String) (s : ConversationState) :
    (stepTime text userText s).group_size = s.group_size := by
  unfold stepTime
  split <;> rfl

theorem stepTime_time_truthy (text userText : String) {s : ConversationState}
    (h : truthyStr s.time = true) : (stepTime text userText s).time = s.time := by
  unfold stepTime
  split
  · next hc => simp [h] at hc
  · rfl

theorem stepTime_pending_subset (text userText : String) (s : ConversationState) :
    (stepTime text userText s).pending_fields ⊆ s.pending_fields := by
  unfold stepTime
  split
  · exact fun a ha => List.mem_of_mem_filter ha
  · exact List.Subset.refl _

theorem stepDate_activity (text userText : String) (s : ConversationState) :
    (stepDate text userText s).activity = s.activity := by
  unfold stepDate
  split <;> rfl

theorem stepDate_group (text userText : String) (s : ConversationState) :
    (stepDate text userText s).group_size = s.group_size := by
  unfold stepDate
  split <;> rfl

theorem stepDate_time (text userText : String) (s : ConversationState) :
    (stepDate text userText s).time = s.time := by
  unfold stepDate
  split <;> rfl

theorem stepDate_pending_subset (text userText : String) (s : ConversationState) :
    (stepDate text userText s).pending_fields ⊆ s.pending_fields := by
  unfold stepDate
  split
  · exact fun a ha => List.mem_of_mem_filter ha
  · exact List.Subset.refl _

theorem stepConfirm_activity (s : ConversationState) :
    (stepConfirm s).activity = s.activity := by
  unfold stepConfirm
  split <;> rfl

theorem stepConfirm_group (s : ConversationState) :
    (stepConfirm s).group_size = s.group_size := by
  unfold stepConfirm
  split <;> rfl

theorem stepConfirm_time (s : ConversationState) :
    (stepConfirm s).time = s.time := by
  unfold stepConfirm
  split <;> rfl

theorem stepConfirm_pending (s : ConversationState) :
    (stepConfirm s).pending_fields = s.pending_fields := by
  unfold stepConfirm
  split <;> rfl

theorem stepActivity_cases (text : String) (s : ConversationState) :
    stepActivity text s = s ∨
      ((stepActivity text s).activity = some "VR Games" ∧ truthyStr s.activity = false ∧
        (stepActivity text s).pending_fields = ["group_size", "date", "time"]) := by
  unfold stepActivity
  split
  · next hc =>
    rw [Bool.and_eq_true, Bool.not_eq_true'] at hc
    exact Or.inr ⟨rfl, hc.1, rfl⟩
  · exact Or.inl rfl

theorem decideNextState_activity (s : ConversationState) (t : String) :
    (decideNextState s t).activity = (stepActivity (strToLower t) s).activity := by
  unfold decideNextState
  rw [stepConfirm_activity, stepDate_activity, stepTime_activity, stepNum_activity,
    stepSub_activity]

theorem stepSub_pending_subset (text : String) (s : ConversationState) :
    (stepSub text s).pending_fields ⊆ s.pending_fields := fun a ha => by
  rw [stepSub_pending] at ha
  exact ha

theorem decideNextState_pending_subset (s : ConversationState) (t : String) :
    (decideNextState s t).pending_fields ⊆ (stepActivity (strToLower t) s).pending_fields := by
  unfold decideNextState
  rw [stepConfirm_pending]
  exact (stepDate_pending_subset _ _ _).trans ((stepTime_pending_subset _ _ _).trans
    ((stepNum_pending_subset _ _).trans (stepSub_pending_subset _ _)))

/-! ## Claim C1: pending-slot exactness and the stage invariant -/

/-- A reachable state refuting the exactness half of C1: the user sends
`"3"` before any activity is selected (filling `group_size`), then
`"vr"`; activity selection re-initialises `pending_fields` to the full
required list, so the filled slot `group_size` is pending again. -/
def c1BadState : ConversationState :=
  transition (transition DEFAULT_STATE "3") "vr"

/-- **C1, counterexample.**  `c1BadState` is reachable from
`DEFAULT_STATE`, yet its `pending_fields` still contains `group_size`
although that slot is filled (with 3) — so `pendingSlots` is not the set
of required slots not yet filled. -/
theorem C1_pending_exactness_counterexample :
    Reachable c1BadState ∧
      "group_size" ∈ c1BadState.pending_fields ∧
      c1BadState.group_size = some 3 ∧
      ¬ c1BadState.pending_fields =
          (requiredSlots c1BadState.activity).filter (fun f => !slotFilled c1BadState f) := by
  refine ⟨Reachable.step _ "vr" (Reachable.step _ "3" Reachable.init), ?_, ?_, ?_⟩ <;> decide

/-- **C1 (amended).**  For every state reachable from the default INIT
state: `pending_fields` is a subset of the required slots of the current
activity and contains every required slot that is not yet filled (but may
also retain slots that were filled before the activity was selected);
the activity is absent or `"VR Games"`, with no pending slots while it is
absent; and `stage = CONFIRM` holds iff the activity is set and
`pending_fields` is empty. -/
theorem C1_stage_invariant_amended (s : ConversationState) (h : Reachable s) : StateInv s :=
  reachable_stateInv h

/-- Witness for C1 (amended) at the initial state. -/
theorem C1_stage_invariant_witness : StateInv DEFAULT_STATE :=
  C1_stage_invariant_amended DEFAULT_STATE Reachable.init

/-! ## Claim C2: reset dominance -/

/-- **C2.**  Whenever the (lowercased) user text matches the reset
vocabulary, the transition returns `DEFAULT_STATE` unconditionally,
whatever the previous state — the reset check precedes every extraction
rule. -/
theorem C2_reset_dominance (s : ConversationState) (t : String)
    (h : detectReset (strToLower t) = true) : transition s t = DEFAULT_STATE := by
  unfold transition
  rw [h]
  rfl

/-- A fully-populated CONFIRM-stage state used to witness C2. -/
def c2RichState : ConversationState :=
  { stage := Stage.CONFIRM
    activity := some "VR Games"
    sub_activity := some "VR Racing"
    group_size := some 4
    date := some "saturday"
    time := some "5pm"
    pending_fields := [] }

/-- Witness for C2 on the input `"restart"` against a fully-populated
state. -/
theorem C2_reset_dominance_witness :
    detectReset (strToLower "restart") = true ∧
      transition c2RichState "restart" = DEFAULT_STATE :=
  ⟨by decide, C2_reset_dominance c2RichState "restart" (by decide)⟩

/-! ## Claim C3: filled slots are never overwritten -/

/-- A state with all three slots filled, used to refute C3 on the date
slot. -/
def c3State : ConversationState :=
  { stage := Stage.ACTIVITY_SELECTED
    activity := some "VR Games"
    sub_activity := none
    group_size := some 4
    date := some "12/05/2026"
    time := some "5 pm"
    pending_fields := [] }

/-- **C3, counterexample.**  `"today"` is not a reset text, the date slot
of `c3State` is already filled with `"12/05/2026"`, and yet the
transition overwrites it with `"today"` — the source's date rule has no
`!state.date` guard. -/
theorem C3_date_overwrite_counterexample :
    detectReset (strToLower "today") = false ∧
      c3State.date = some "12/05/2026" ∧
      (transition c3State "today").date = some "today" ∧
      ¬ (transition c3State "today").date = c3State.date := by
  refine ⟨?_, ?_, ?_, ?_⟩ <;> decide

/-- **C3 (amended).**  For every state and non-reset user text, a
`group_size` slot holding a truthy (non-zero) value and a `time` slot
holding a truthy (non-empty) value are never overwritten; no such
guarantee holds for `date` (see the counterexample), nor for falsy filled
values (`0`, `""`), which JavaScript truthiness treats as unfilled. -/
theorem C3_filled_slots_amended :
    (∀ (s : ConversationState) (t : String), detectReset (strToLower t) = false →
        truthyNat s.group_size = true → (transition s t).group_size = s.group_size) ∧
    (∀ (s : ConversationState) (t : String), detectReset (strToLower t) = false →
        truthyStr s.time = true → (transition s t).time = s.time) := by
  constructor
  · intro s t hres hg
    unfold transition
    rw [hres]
    simp only [Bool.false_eq_true, if_false]
    unfold decideNextState
    rw [stepConfirm_group, stepDate_group, stepTime_group]
    rw [stepNum_group_truthy _ (by rw [stepSub_group, stepActivity_group]; exact hg)]
    rw [stepSub_group, stepActivity_group]
  · intro s t hres ht
    unfold transition
    rw [hres]
    simp only [Bool.false_eq_true, if_false]
    unfold decideNextState
    rw [stepConfirm_time, stepDate_time]
    rw [stepTime_time_truthy _ _ (by rw [stepNum_time, stepSub_time, stepActivity_time]; exact ht)]
    rw [stepNum_time, stepSub_time, stepActivity_time]

/-- Witness for C3 (amended): a state with truthy `group_size` and `time`
keeps both across the non-reset message `"hello"`. -/
theorem C3_filled_slots_witness :
    (transition c3State "hello").group_size = c3State.group_size ∧
      (transition c3State "hello").time = c3State.time :=
  ⟨C3_filled_slots_amended.1 c3State "hello" (by decide) (by decide),
    C3_filled_slots_amended.2 c3State "hello" (by decide) (by decide)⟩

/-! ## Claim C4: the two-message booking scenario -/

/-- The scenario's initial state: VR Games selected, all slots unfilled. -/
def c4State0 : ConversationState :=
  { stage := Stage.ACTIVITY_SELECTED
    activity := some "VR Games"
    sub_activity := none
    group_size := none
    date := none
    time := none
    pending_fields := ["group_size", "date", "time"] }

/-- State after the first scenario message. -/
def c4State1 : ConversationState :=
  transition c4State0 "3 players at 5pm"

/-- State after the second scenario message. -/
def c4State2 : ConversationState :=
  transition c4State1 "today"

/-- **C4.**  From `c4State0`, the message `"3 players at 5pm"` fills
`group_size = 3` and `time`, leaves `pending_fields = ["date"]` and keeps
the stage at ACTIVITY_SELECTED; the follow-up `"today"` fills `date`,
empties `pending_fields` and moves the stage to CONFIRM. -/
theorem C4_booking_scenario :
    c4State1.group_size = some 3 ∧
      c4State1.time = some "3 players at 5pm" ∧
      c4State1.pending_fields = ["date"] ∧
      c4State1.stage = Stage.ACTIVITY_SELECTED ∧
      c4State2.date = some "today" ∧
      c4State2.pending_fields = [] ∧
      c4State2.stage = Stage.CONFIRM := by
  decide

/-! ## Claim C5: pending-slot monotonicity -/

/-- **C5.**  If a transition leaves the activity unchanged, the resulting
`pending_fields` is a subset of the previous one: the engine only ever
removes pending slots except when it newly selects an activity. -/
theorem C5_slot_monotonicity (s : ConversationState) (t : String)
    (h : (transition s t).activity = s.activity) :
    (transition s t).pending_fields ⊆ s.pending_fields := by
  unfold transition at *
  split at h
  · next hres =>
    rw [if_pos hres]
    exact List.nil_subset _
  · next hres =>
    rw [if_neg hres]
    rcases stepActivity_cases (strToLower t) s with hcase | ⟨hact, hfalsy, _⟩
    · exact (decideNextState_pending_subset s t).trans (fun a ha => by rw [hcase] at ha; exact ha)
    · exfalso
      rw [decideNextState_activity, hact] at h
      exact truthy_not_vr hfalsy h.symm

/-- Witness for C5: the greeting `"hello"` changes neither the activity
nor (here) the pending slots of the default state. -/
theorem C5_slot_monotonicity_witness :
    (transition DEFAULT_STATE "hello").pending_fields ⊆ DEFAULT_STATE.pending_fields :=
  C5_slot_monotonicity DEFAULT_STATE "hello" (by decide)

/-! ## Collaborator outcomes

External collaborators (embedding, retrieval, the LLM, WhatsApp dispatch)
are modelled by their per-turn outcome: a returned value or a thrown
error (carrying the error message, which some catch blocks surface). -/

/-- Result of one call to an external collaborator. -/
inductive Outcome (α : Type) where
  | ok (val : α)
  | thrown (msg : String)
deriving DecidableEq

/-- An embedding vector (its contents never matter to the pipeline). -/
abbrev Vec := List Int

/-- A retrieved chunk, as used by the pipelines (`m.chunk`). -/
structure Chunk where
  chunk : String
deriving DecidableEq

/-- A row of the `whatsapp_messages` history table as selected by the
responders (`content_text`, `event_type`), together with the
`received_at` timestamp the query orders by. -/
structure HistRow where
  received_at : Nat
  content_text : Option String
  event_type : String
deriving DecidableEq

/-- Insert a row into a list that is ascending by `received_at`. -/
def insertByTs (r : HistRow) : List HistRow → List HistRow
  | [] => [r]
  | x :: xs => if r.received_at < x.received_at then r :: x :: xs else x :: insertByTs r xs

/-- Sort rows ascending by `received_at` (the semantics of
`.order("received_at", ascending)`). -/
def sortByTs : List HistRow → List HistRow
  | [] => []
  | x :: xs => insertByTs x (sortByTs xs)

/-- Semantics of `.order("received_at", { ascending: true }).limit(lim)`:
the first `lim` rows of the ascending order — i.e. the oldest ones. -/
def dbAscLimit (rows : List HistRow) (lim : Nat) : List HistRow :=
  (sortByTs rows).take lim

/-- JavaScript `l.slice(-n)`: the last `n` elements. -/
def listTail (l : List (String × String)) (n : Nat) : List (String × String) :=
  l.drop (l.length - n)

/-- Modelled from the spec: the history window the spec asks for — "the
most recent turns (the last N in timestamp order), truncated to that
fixed count".  Compared against `dbAscLimit`, which is what the code
queries. -/
def specRecentWindow (rows : List HistRow) (n : Nat) : List HistRow :=
  (sortByTs rows).drop ((sortByTs rows).length - n)

/-! ## Web chat route (`src/app/api/chat/route.ts`) -/

/-- `SMALL_TALK` of the route. -/
def SMALL_TALK : List String :=
  ["hi", "hello", "hey", "ok", "okay", "thanks", "thank you", "bye"]

/-- `isSmallTalk`: is the trimmed, lowercased message exactly one of the
fixed small-talk tokens? -/
def isSmallTalk (message : String) : Bool :=
  SMALL_TALK.contains (strToLower (strTrim message))

/-- The fixed small-talk reply of the streaming route (its source file is
mis-encoded, so the emoji appears as the bytes below at runtime too). -/
def smallTalkReply : String :=
  "Hi! Neon Panda mein booking ke liye help chahiye? ğŸ˜Š"

/-- Per-turn behaviour of the collaborators of the streaming web route. -/
structure WebEnv where
  embed : Outcome (Option Vec)
  search : Vec → Outcome (List Chunk)
  historyRows : List (String × String)
  generate : Outcome String

/-- Observable result of one web-route turn: the HTTP status and body,
the retrieval context that was assembled, and which pipeline steps ran. -/
structure WebResult where
  status : Nat
  body : String
  contextText : String
  embedCalled : Bool
  searchCalled : Bool
  historyLoaded : Bool
  generateCalled : Bool
deriving DecidableEq

/-- The `POST` handler of `src/app/api/chat/route.ts`: input validation,
small-talk short-circuit, best-effort embedding/retrieval inside a
`try`/`catch` that leaves `contextText` empty, history load, and the
(streamed) generation whose concatenated text becomes the body; a thrown
generation error is mapped to a 500 JSON error by the outer catch. -/
def webChatPOST (session_id message : String) (env : WebEnv) : WebResult :=
  if session_id = "" ∨ message = "" then
    { status := 400, body := "session_id and message are required", contextText := ""
      embedCalled := false, searchCalled := false, historyLoaded := false
      generateCalled := false }
  else if isSmallTalk message then
    { status := 200, body := smallTalkReply, contextText := ""
      embedCalled := false, searchCalled := false, historyLoaded := false
      generateCalled := false }
  else
    let ctx : String × Bool :=
      match env.embed with
      | Outcome.thrown _ => ("", false)
      | Outcome.ok none => ("", false)
      | Outcome.ok (some v) =>
        match env.search v with
        | Outcome.thrown _ => ("", true)
        | Outcome.ok ms => (String.intercalate "\n\n" (ms.map Chunk.chunk), true)
    match env.generate with
    | Outcome.thrown m =>
      { status := 500, body := m, contextText := ctx.1, embedCalled := true
        searchCalled := ctx.2, historyLoaded := true, generateCalled := true }
    | Outcome.ok text =>
      { status := 200, body := text, contextText := ctx.1, embedCalled := true
        searchCalled := ctx.2, historyLoaded := true, generateCalled := true }

/-! ## The non-streaming chat route (first file of `part_000`) -/

/-- The small-talk reply of the non-streaming route (correctly encoded
there). -/
def smallTalkReply0 : String :=
  "Hi! Neon Panda mein booking ke liye help chahiye? 😊"

/-- Fallback substituted when the generation content is missing/empty:
`completion.choices[0]?.message?.content || fallback`. -/
def fallbackReply0 : String :=
  "Abhi ispe exact info available nahi hai 😊"

/-- Friendly message returned (status 200) by the route's outer catch. -/
def errorReply0 : String :=
  "Thoda sa issue aa gaya 😅 Please thodi der baad try karein."

/-- Collaborators of the non-streaming route; generation may return a
missing (`none`) or empty content. -/
structure WebEnv0 where
  embed : Outcome (Option Vec)
  search : Vec → Outcome (List Chunk)
  historyRows : List (String × String)
  generate : Outcome (Option String)

/-- The `POST` handler of the non-streaming chat route (`part_000`):
identical flow, but the generation result is taken through
`content || fallback` and every error path still answers 200. -/
def webChatPOST0 (session_id message : String) (env : WebEnv0) : WebResult :=
  if session_id = "" ∨ message = "" then
    { status := 400, body := "Invalid request", contextText := ""
      embedCalled := false, searchCalled := false, historyLoaded := false
      generateCalled := false }
  else if isSmallTalk message then
    { status := 200, body := smallTalkReply0, contextText := ""
      embedCalled := false, searchCalled := false, historyLoaded := false
      generateCalled := false }
  else
    let ctx : String × Bool :=
      match env.embed with
      | Outcome.thrown _ => ("", false)
      | Outcome.ok none => ("", false)
      | Outcome.ok (some v) =>
        match env.search v with
        | Outcome.thrown _ => ("", true)
        | Outcome.ok ms => (String.intercalate "\n\n" (ms.map Chunk.chunk), true)
    match env.generate with
    | Outcome.thrown _ =>
      { status := 200, body := errorReply0, contextText := ctx.1, embedCalled := true
        searchCalled := ctx.2, historyLoaded := true, generateCalled := true }
    | Outcome.ok content =>
      { status := 200, body := strOrElse content fallbackReply0, contextText := ctx.1
        embedCalled := true, searchCalled := ctx.2, historyLoaded := true
        generateCalled := true }

/-! ## WhatsApp auto-responder with the state machine (first file of
`part_001`) -/

/-- `cleanUserName`: strip non-alphanumeric/space characters and trim;
`null`/`""` yield `null`. -/
def cleanUserName (name : Option String) : Option String :=
  match name with
  | none => none
  | some n =>
    if n = "" then none
    else some (strTrim ⟨n.data.filter (fun c => c.isAlphanum || c.isWhitespace)⟩)

/-- `greetingPrefix`: `"Hi <name> 😊 "` for a truthy name, else `""`. -/
def greetingPrefix (name : Option String) : String :=
  match name with
  | none => ""
  | some n => if n = "" then "" else "Hi " ++ n ++ " 😊 "

/-- `normalizePhone`: keep only digits. -/
def normalizePhone (num : String) : String :=
  ⟨num.data.filter Char.isDigit⟩

/-- The `phone_document_mapping` row selected by the responder. -/
structure MappingRow1 where
  id : Nat
  system_prompt : Option String
  auth_token : Option String
  origin : Option String
  conversation_state : Option ConversationState
deriving DecidableEq

/-- Result object of `sendWhatsAppMessage` as the first responder uses it
(`sendResult?.success`; the whole object may be absent). -/
structure SendOutcome where
  success : Bool
deriving DecidableEq

/-- Per-turn behaviour of the collaborators and stores of the first
responder. -/
structure WaEnv1 where
  fileIds : List Nat
  mappingRows : List MappingRow1
  transcript : Option String
  embed : Outcome (Option Vec)
  search : Outcome (List Chunk)
  histRows : List HistRow
  llm : Outcome (Option String)
  send : Outcome (Option SendOutcome)

/-- Observable result of a first-responder turn.  `success`, `response`,
`error`, `noDocuments` and `sent` mirror the fields of the returned JS
object (absent fields are `none`/`false`); `llmCalled`,
`persistedState`, `persistedAssistantTurn` and `historySupplied` record
the side effects performed during the turn (the `conversation_state`
update, the inserted assistant message, and the history passed to the
LLM). -/
structure AutoResult1 where
  success : Bool
  response : Option String
  error : Option String
  noDocuments : Bool
  sent : Bool
  llmCalled : Bool
  persistedState : Option ConversationState
  persistedAssistantTurn : Option String
  historySupplied : List (String × String)
deriving DecidableEq

/-- All-absent result template for the first responder. -/
def emptyResult1 : AutoResult1 :=
  { success := false, response := none, error := none, noDocuments := false
    sent := false, llmCalled := false, persistedState := none
    persistedAssistantTurn := none, historySupplied := [] }

/-- `generateAutoResponse` (first variant, with the state machine):
document lookup, phone config, user text (voice transcript fallback),
reset-or-transition state update persisted immediately, RAG, a
10-row ascending history load, the LLM call (empty reply aborts with
`"Empty AI response"`), optional greeting prefix, WhatsApp dispatch
(failure aborts with `"WhatsApp send failed"` and no `response` field),
and finally the assistant-turn insert.  Any thrown collaborator error is
caught and mapped to `"Auto responder failed"`.  Phone numbers and the
message id only key the external stores, which `env` abstracts. -/
def generateAutoResponse1 (messageText mediaUrl senderName : Option String)
    (env : WaEnv1) : AutoResult1 :=
  if env.fileIds.isEmpty then { emptyResult1 with noDocuments := true }
  else
    match env.mappingRows.head? with
    | none => { emptyResult1 with error := some "Phone config missing" }
    | some mapping =>
      let state0 := mapping.conversation_state.getD DEFAULT_STATE
      let t0 := (messageText.map strTrim).getD ""
      let finalUserText :=
        if t0 = "" then
          if truthyStr mediaUrl then (env.transcript.getD "") else ""
        else t0
      if finalUserText = "" then { emptyResult1 with error := some "Empty message" }
      else
        let state := transition state0 finalUserText
        match env.embed with
        | Outcome.thrown _ =>
          { emptyResult1 with error := some "Auto responder failed"
                              persistedState := some state }
        | Outcome.ok _ =>
          match env.search with
          | Outcome.thrown _ =>
            { emptyResult1 with error := some "Auto responder failed"
                                persistedState := some state }
          | Outcome.ok _ms =>
            let history := ((dbAscLimit env.histRows 10).filter
                (fun r => truthyStr r.content_text)).map
              (fun r => ((if r.event_type = "MoMessage" then "user" else "assistant"),
                r.content_text.getD ""))
            match env.llm with
            | Outcome.thrown _ =>
              { emptyResult1 with error := some "Auto responder failed"
                                  persistedState := some state, llmCalled := true
                                  historySupplied := history }
            | Outcome.ok replyOpt =>
              if truthyStr replyOpt = false then
                { emptyResult1 with error := some "Empty AI response"
                                    persistedState := some state, llmCalled := true
                                    historySupplied := history }
              else
                let userName := cleanUserName senderName
                let reply :=
                  if state.stage = Stage.INIT ∧ history.isEmpty = true ∧
                      truthyStr userName = true then
                    greetingPrefix userName ++ replyOpt.getD ""
                  else replyOpt.getD ""
                match env.send with
                | Outcome.thrown _ =>
                  { emptyResult1 with error := some "Auto responder failed"
                                      persistedState := some state, llmCalled := true
                                      historySupplied := history }
                | Outcome.ok sendOpt =>
                  if ((sendOpt.map SendOutcome.success).getD false) = false then
                    { emptyResult1 with error := some "WhatsApp send failed"
                                        persistedState := some state, llmCalled := true
                                        historySupplied := history }
                  else
                    { emptyResult1 with success := true, response := some reply
                                        sent := true, persistedState := some state
                                        persistedAssistantTurn := some reply
                                        llmCalled := true, historySupplied := history }

/-! ## WhatsApp auto-responder without the state machine (second file of
`part_001`) -/

/-- The mapping row selected by the second responder. -/
structure MappingRow2 where
  system_prompt : Option String
  auth_token : Option String
  origin : Option String
deriving DecidableEq

/-- `sendWhatsAppMessage` result as the second responder uses it
(`sendResult.success`, `sendResult.error`). -/
structure SendOutcome2 where
  success : Bool
  error : Option String
deriving DecidableEq

/-- Per-turn behaviour of the collaborators and stores of the second
responder.  `mappingError` models a supabase error on the config query. -/
structure WaEnv2 where
  fileIds : List Nat
  mappingError : Bool
  mappingRows : List MappingRow2
  embed : Outcome (Option Vec)
  search : Outcome (List Chunk)
  histRows : List HistRow
  llm : Outcome (Option String)
  send : Outcome SendOutcome2

/-- Observable result of a second-responder turn: the returned
`AutoResponseResult` fields plus side-effect observables, as for the
first responder; `markedResponded` records the final update of the
inbound record. -/
structure AutoResult2 where
  success : Bool
  response : Option String
  error : Option String
  noDocuments : Bool
  sent : Option Bool
  llmCalled : Bool
  persistedAssistantTurn : Option String
  markedResponded : Bool
  historySupplied : List (String × String)
deriving DecidableEq

/-- All-absent result template for the second responder. -/
def emptyResult2 : AutoResult2 :=
  { success := false, response := none, error := none, noDocuments := false
    sent := none, llmCalled := false, persistedAssistantTurn := none
    markedResponded := false, historySupplied := [] }

/-- `generateAutoResponse` (second variant): document lookup, phone
config with credential check, trimmed user text, embedding (a missing
vector aborts with `"Embedding generation failed"`), RAG with the
`"NO_RELEVANT_INFORMATION"` sentinel, a 20-row ascending history load of
which the last 10 are passed to the LLM, the LLM call (empty reply
aborts), dispatch (failure returns `success=false` but includes
`response`), the assistant-turn insert and the responded-mark.  Thrown
errors are caught and surfaced as their message. -/
def generateAutoResponse2 (messageText : String) (env : WaEnv2) : AutoResult2 :=
  if env.fileIds.isEmpty then { emptyResult2 with noDocuments := true }
  else if env.mappingError then { emptyResult2 with error := some "Phone config missing" }
  else
    match env.mappingRows with
    | [] => { emptyResult2 with error := some "Phone config missing" }
    | mapping :: _ =>
      let auth_token := mapping.auth_token.getD ""
      let origin := mapping.origin.getD ""
      if auth_token = "" ∨ origin = "" then
        { emptyResult2 with
            error := some "WhatsApp API credentials missing for this phone number" }
      else
        let userText := strTrim messageText
        if userText = "" then { emptyResult2 with error := some "Empty message" }
        else
          match env.embed with
          | Outcome.thrown m => { emptyResult2 with error := some m }
          | Outcome.ok none =>
            { emptyResult2 with error := some "Embedding generation failed" }
          | Outcome.ok (some _) =>
            match env.search with
            | Outcome.thrown m => { emptyResult2 with error := some m }
            | Outcome.ok ms =>
              let _contextText :=
                if ms.isEmpty then "NO_RELEVANT_INFORMATION"
                else String.intercalate "\n\n" (ms.map Chunk.chunk)
              let history := ((dbAscLimit env.histRows 20).filter
                  (fun r => r.content_text.isSome &&
                    (r.event_type == "MoMessage" || r.event_type == "MtMessage"))).map
                (fun r => ((if r.event_type = "MoMessage" then "user" else "assistant"),
                  r.content_text.getD ""))
              let histUsed := listTail history 10
              match env.llm with
              | Outcome.thrown m =>
                { emptyResult2 with error := some m, llmCalled := true
                                    historySupplied := histUsed }
              | Outcome.ok content =>
                let reply := (content.map strTrim).getD ""
                if reply = "" then
                  { emptyResult2 with error := some "Empty AI response"
                                      llmCalled := true, historySupplied := histUsed }
                else
                  match env.send with
                  | Outcome.thrown m =>
                    { emptyResult2 with error := some m, llmCalled := true
                                        historySupplied := histUsed }
                  | Outcome.ok sres =>
                    if sres.success = false then
                      { emptyResult2 with response := some reply, sent := some false
                                          error := some "WhatsApp send failed"
                                          llmCalled := true, historySupplied := histUsed }
                    else
                      { emptyResult2 with success := true, response := some reply
                                          sent := some true
                                          persistedAssistantTurn := some reply
                                          markedResponded := true, llmCalled := true
                                          historySupplied := histUsed }

theorem strOrElse_falsy {c : Option String} (b : String) (h : truthyStr c = false) :
    strOrElse c b = b := by
  cases c with
  | none => rfl
  | some s =>
    simp [truthyStr] at h
    simp [strOrElse, h]

/-! ## Claim C6: retrieval fault tolerance -/

/-- Environment refuting C6: the second WhatsApp responder with an
embedding call that returns no vector and every other collaborator
healthy. -/
def c6Env2 : WaEnv2 :=
  { fileIds := [1]
    mappingError := false
    mappingRows := [{ system_prompt := some "p", auth_token := some "tok", origin := some "org" }]
    embed := Outcome.ok none
    search := Outcome.ok []
    histRows := []
    llm := Outcome.ok (some "hello")
    send := Outcome.ok { success := true, error := none } }

/-- **C6, counterexample.**  An inbound WhatsApp message whose embedding
returns no vector does NOT proceed to generation: the second responder
aborts the turn with `"Embedding generation failed"` and never calls the
LLM, contradicting "retrieval failure never aborts the conversation" for
every inbound message. -/
theorem C6_embedding_abort_counterexample :
    (generateAutoResponse2 "what are the prices" c6Env2).success = false ∧
      (generateAutoResponse2 "what are the prices" c6Env2).error =
        some "Embedding generation failed" ∧
      (generateAutoResponse2 "what are the prices" c6Env2).llmCalled = false := by
  refine ⟨?_, ?_, ?_⟩ <;> decide

/-- **C6 (amended).**  In the web-chat route the claim holds: whether the
embedding call throws or returns no vector, `contextText` stays the empty
sentinel and the turn still reaches generation.  The WhatsApp responder
instead aborts the turn with `"Embedding generation failed"` when the
embedding returns no vector. -/
theorem C6_retrieval_fault_tolerance_amended :
    (∀ (sid msg m2 : String) (srch : Vec → Outcome (List Chunk))
        (hist : List (String × String)) (gen : Outcome String),
        sid ≠ "" → msg ≠ "" → isSmallTalk msg = false →
        (webChatPOST sid msg { embed := Outcome.thrown m2, search := srch
                               historyRows := hist, generate := gen }).contextText = "" ∧
          (webChatPOST sid msg { embed := Outcome.thrown m2, search := srch
                                 historyRows := hist, generate := gen }).generateCalled = true) ∧
    (∀ (sid msg : String) (srch : Vec → Outcome (List Chunk))
        (hist : List (String × String)) (gen : Outcome String),
        sid ≠ "" → msg ≠ "" → isSmallTalk msg = false →
        (webChatPOST sid msg { embed := Outcome.ok none, search := srch
                               historyRows := hist, generate := gen }).contextText = "" ∧
          (webChatPOST sid msg { embed := Outcome.ok none, search := srch
                                 historyRows := hist, generate := gen }).generateCalled = true) ∧
    (∀ (msg tok org sp : String) (fid : Nat) (fids : List Nat) (rest : List MappingRow2)
        (srch : Outcome (List Chunk)) (rows : List HistRow) (llm : Outcome (Option String))
        (send : Outcome SendOutcome2) (r : AutoResult2),
        r = generateAutoResponse2 msg
            { fileIds := fid :: fids, mappingError := false
              mappingRows := { system_prompt := some sp, auth_token := some tok
                               origin := some org } :: rest
              embed := Outcome.ok none, search := srch, histRows := rows
              llm := llm, send := send } →
        tok ≠ "" → org ≠ "" → strTrim msg ≠ "" →
        r.success = false ∧ r.error = some "Embedding generation failed" ∧
          r.llmCalled = false) := by
  refine ⟨?_, ?_, ?_⟩
  · intro sid msg m2 srch hist gen hsid hmsg hst
    cases gen <;> simp [webChatPOST, hsid, hmsg, hst]
  · intro sid msg srch hist gen hsid hmsg hst
    cases gen <;> simp [webChatPOST, hsid, hmsg, hst]
  · intro msg tok org sp fid fids rest srch rows llm send r hr htok horg hmsg
    subst hr
    refine ⟨?_, ?_, ?_⟩ <;> simp [generateAutoResponse2, emptyResult2, htok, horg, hmsg]

/-- Healthy web-route environment except for a thrown embedding call. -/
def c6WebEnv : WebEnv :=
  { embed := Outcome.thrown "embed down"
    search := fun _ => Outcome.ok []
    historyRows := []
    generate := Outcome.ok "Hum VR aur bowling offer karte hain!" }

/-- Witness for C6 (amended) at concrete inputs. -/
theorem C6_retrieval_fault_tolerance_witness :
    ((webChatPOST "s1" "what are the prices" c6WebEnv).contextText = "" ∧
      (webChatPOST "s1" "what are the prices" c6WebEnv).generateCalled = true) ∧
    ((generateAutoResponse2 "prices please" c6Env2).success = false ∧
      (generateAutoResponse2 "prices please" c6Env2).error =
        some "Embedding generation failed" ∧
      (generateAutoResponse2 "prices please" c6Env2).llmCalled = false) :=
  ⟨C6_retrieval_fault_tolerance_amended.1 "s1" "what are the prices" "embed down"
      (fun _ => Outcome.ok []) [] (Outcome.ok "Hum VR aur bowling offer karte hain!")
      (by decide) (by decide) (by decide),
    C6_retrieval_fault_tolerance_amended.2.2 "prices please" "tok" "org" "p" 1 [] []
      (Outcome.ok []) [] (Outcome.ok (some "hello")) (Outcome.ok ⟨true, none⟩) _ rfl
      (by decide) (by decide) (by decide)⟩

/-! ## Claim C7: empty generation handling -/

/-- Environment refuting C7: the first WhatsApp responder with a healthy
pipeline but an LLM that returns no content. -/
def c7Env1 : WaEnv1 :=
  { fileIds := [7]
    mappingRows := [{ id := 1, system_prompt := some "p", auth_token := some "tok"
                      origin := some "org", conversation_state := none }]
    transcript := none
    embed := Outcome.ok (some [1])
    search := Outcome.ok []
    histRows := []
    llm := Outcome.ok none
    send := Outcome.ok (some { success := true }) }

/-- **C7, counterexample.**  When the generation collaborator returns no
content, the WhatsApp responder does not substitute any fallback: it
returns `success = false` with `"Empty AI response"`, reports no reply
text, and persists/dispatches nothing — the claim's fallback behaviour
does not hold for every turn. -/
theorem C7_empty_generation_counterexample :
    (generateAutoResponse1 (some "vr booking") none none c7Env1).success = false ∧
      (generateAutoResponse1 (some "vr booking") none none c7Env1).error =
        some "Empty AI response" ∧
      (generateAutoResponse1 (some "vr booking") none none c7Env1).response = none ∧
      (generateAutoResponse1 (some "vr booking") none none c7Env1).sent = false ∧
      (generateAutoResponse1 (some "vr booking") none none c7Env1).persistedAssistantTurn
        = none := by
  refine ⟨?_, ?_, ?_, ?_, ?_⟩ <;> decide

/-- **C7 (amended).**  Only the non-streaming web-chat route substitutes
the fixed fallback for a missing/empty generation (returning it with
status 200; that route persists no turns at all); the WhatsApp responder
instead fails the turn with `success = false` and error
`"Empty AI response"`, dispatching and persisting nothing. -/
theorem C7_empty_generation_amended :
    (∀ (sid msg : String) (emb : Outcome (Option Vec)) (srch : Vec → Outcome (List Chunk))
        (hist : List (String × String)) (c : Option String),
        sid ≠ "" → msg ≠ "" → isSmallTalk msg = false → truthyStr c = false →
        (webChatPOST0 sid msg { embed := emb, search := srch, historyRows := hist
                                generate := Outcome.ok c }).body = fallbackReply0 ∧
          (webChatPOST0 sid msg { embed := emb, search := srch, historyRows := hist
                                  generate := Outcome.ok c }).status = 200) ∧
    (∀ (mt : String) (md sn tr c : Option String) (fid : Nat) (fids : List Nat)
        (mrow : MappingRow1) (rest : List MappingRow1) (embOpt : Option Vec)
        (ms : List Chunk) (rows : List HistRow) (send : Outcome (Option SendOutcome))
        (r : AutoResult1),
        r = generateAutoResponse1 (some mt) md sn
            { fileIds := fid :: fids, mappingRows := mrow :: rest, transcript := tr
              embed := Outcome.ok embOpt, search := Outcome.ok ms, histRows := rows
              llm := Outcome.ok c, send := send } →
        strTrim mt ≠ "" → truthyStr c = false →
        r.success = false ∧ r.error = some "Empty AI response" ∧ r.response = none ∧
          r.sent = false ∧ r.persistedAssistantTurn = none) := by
  constructor
  · intro sid msg emb srch hist c hsid hmsg hst hc
    have hb : strOrElse c fallbackReply0 = fallbackReply0 := strOrElse_falsy _ hc
    rcases emb with vo | m
    · rcases vo with _ | v
      · simp [webChatPOST0, hsid, hmsg, hst, hb]
      · rcases hsr : srch v with ms | m2 <;> simp [webChatPOST0, hsid, hmsg, hst, hb, hsr]
    · simp [webChatPOST0, hsid, hmsg, hst, hb]
  · intro mt md sn tr c fid fids mrow rest embOpt ms rows send r hr hmt hc
    subst hr
    refine ⟨?_, ?_, ?_, ?_, ?_⟩ <;>
      simp [generateAutoResponse1, emptyResult1, hmt, hc]

/-- Web environment whose generation returns missing content. -/
def c7WebEnv0 : WebEnv0 :=
  { embed := Outcome.ok none
    search := fun _ => Outcome.ok []
    historyRows := []
    generate := Outcome.ok none }

/-- Witness for C7 (amended) at concrete inputs. -/
theorem C7_empty_generation_witness :
    ((webChatPOST0 "s1" "vr price?" c7WebEnv0).body = fallbackReply0 ∧
      (webChatPOST0 "s1" "vr price?" c7WebEnv0).status = 200) ∧
    ((generateAutoResponse1 (some "vr tonight") none none c7Env1).success = false ∧
      (generateAutoResponse1 (some "vr tonight") none none c7Env1).error =
        some "Empty AI response" ∧
      (generateAutoResponse1 (some "vr tonight") none none c7Env1).response = none ∧
      (generateAutoResponse1 (some "vr tonight") none none c7Env1).sent = false ∧
      (generateAutoResponse1 (some "vr tonight") none none c7Env1).persistedAssistantTurn
        = none) :=
  ⟨C7_empty_generation_amended.1 "s1" "vr price?" (Outcome.ok none)
      (fun _ => Outcome.ok []) [] none (by decide) (by decide) (by decide) (by decide),
    C7_empty_generation_amended.2 "vr tonight" none none none none 7 []
      { id := 1, system_prompt := some "p", auth_token := some "tok", origin := some "org"
        conversation_state := none } [] (some [1]) [] [] (Outcome.ok (some ⟨true⟩)) _ rfl
      (by decide) (by decide)⟩

/-! ## Claim C8: dispatch failure reporting -/

/-- Environment refuting C8: the first WhatsApp responder with a healthy
pipeline, a generated reply, and a dispatch that reports failure. -/
def c8Env1 : WaEnv1 :=
  { fileIds := [7]
    mappingRows := [{ id := 1, system_prompt := some "p", auth_token := some "tok"
                      origin := some "org", conversation_state := none }]
    transcript := none
    embed := Outcome.ok (some [1])
    search := Outcome.ok []
    histRows := []
    llm := Outcome.ok (some "Sure, booked!")
    send := Outcome.ok (some { success := false }) }

/-- **C8, counterexample.**  On dispatch failure after a non-empty
generation, the (state-machine) responder returns `success = false` with
`"WhatsApp send failed"` but its result does NOT report the generated
reply text (`response = none`), contradicting the claim; the state
persisted before dispatch does remain. -/
theorem C8_dispatch_failure_counterexample :
    (generateAutoResponse1 (some "vr for 3") none none c8Env1).success = false ∧
      (generateAutoResponse1 (some "vr for 3") none none c8Env1).error =
        some "WhatsApp send failed" ∧
      (generateAutoResponse1 (some "vr for 3") none none c8Env1).response = none ∧
      (generateAutoResponse1 (some "vr for 3") none none c8Env1).persistedState =
        some (transition DEFAULT_STATE "vr for 3") := by
  refine ⟨?_, ?_, ?_, ?_⟩ <;> decide

/-- **C8 (amended).**  On dispatch failure both responders return
`success = false` with `"WhatsApp send failed"` (distinct from the
generation-failure error `"Empty AI response"`), and the conversation
state persisted before dispatch remains persisted; but only the second
responder includes the generated reply text in its result — the first
omits it. -/
theorem C8_dispatch_failure_amended :
    (∀ (mt : String) (md sn tr c : Option String) (fid : Nat) (fids : List Nat)
        (mrow : MappingRow1) (rest : List MappingRow1) (embOpt : Option Vec)
        (ms : List Chunk) (rows : List HistRow) (sendOpt : Option SendOutcome)
        (r : AutoResult1),
        r = generateAutoResponse1 (some mt) md sn
            { fileIds := fid :: fids, mappingRows := mrow :: rest, transcript := tr
              embed := Outcome.ok embOpt, search := Outcome.ok ms, histRows := rows
              llm := Outcome.ok c, send := Outcome.ok sendOpt } →
        strTrim mt ≠ "" → truthyStr c = true →
        ((sendOpt.map SendOutcome.success).getD false) = false →
        r.success = false ∧ r.error = some "WhatsApp send failed" ∧
          ¬ r.error = some "Empty AI response" ∧ r.response = none ∧
          r.persistedState =
            some (transition (mrow.conversation_state.getD DEFAULT_STATE) (strTrim mt))) ∧
    (∀ (mt tok org sp c : String) (fid : Nat) (fids : List Nat) (rest : List MappingRow2)
        (embv : Vec) (ms : List Chunk) (rows : List HistRow) (serr : Option String)
        (r : AutoResult2),
        r = generateAutoResponse2 mt
            { fileIds := fid :: fids, mappingError := false
              mappingRows := { system_prompt := some sp, auth_token := some tok
                               origin := some org } :: rest
              embed := Outcome.ok (some embv), search := Outcome.ok ms, histRows := rows
              llm := Outcome.ok (some c)
              send := Outcome.ok { success := false, error := serr } } →
        tok ≠ "" → org ≠ "" → strTrim mt ≠ "" → strTrim c ≠ "" →
        r.success = false ∧ r.error = some "WhatsApp send failed" ∧
          r.response = some (strTrim c) ∧ r.sent = some false) := by
  constructor
  · intro mt md sn tr c fid fids mrow rest embOpt ms rows sendOpt r hr hmt hc hsend
    subst hr
    refine ⟨?_, ?_, ?_, ?_, ?_⟩ <;>
      simp [generateAutoResponse1, emptyResult1, hmt, hc, hsend]
  · intro mt tok org sp c fid fids rest embv ms rows serr r hr htok horg hmt hc
    subst hr
    refine ⟨?_, ?_, ?_, ?_⟩ <;>
      simp [generateAutoResponse2, emptyResult2, htok, horg, hmt, hc]

/-- Second-responder environment with a failing dispatch. -/
def c8Env2 : WaEnv2 :=
  { fileIds := [7]
    mappingError := false
    mappingRows := [{ system_prompt := some "p", auth_token := some "tok", origin := some "org" }]
    embed := Outcome.ok (some [1])
    search := Outcome.ok []
    histRows := []
    llm := Outcome.ok (some "Sure, booked!")
    send := Outcome.ok { success := false, error := some "401" } }

/-- Witness for C8 (amended) at concrete inputs. -/
theorem C8_dispatch_failure_witness :
    ((generateAutoResponse1 (some "vr at 5pm") none none c8Env1).success = false ∧
      (generateAutoResponse1 (some "vr at 5pm") none none c8Env1).error =
        some "WhatsApp send failed" ∧
      ¬ (generateAutoResponse1 (some "vr at 5pm") none none c8Env1).error =
        some "Empty AI response" ∧
      (generateAutoResponse1 (some "vr at 5pm") none none c8Env1).response = none ∧
      (generateAutoResponse1 (some "vr at 5pm") none none c8Env1).persistedState =
        some (transition DEFAULT_STATE "vr at 5pm")) ∧
    ((generateAutoResponse2 "vr for 3" c8Env2).success = false ∧
      (generateAutoResponse2 "vr for 3" c8Env2).error = some "WhatsApp send failed" ∧
      (generateAutoResponse2 "vr for 3" c8Env2).response = some (strTrim "Sure, booked!") ∧
      (generateAutoResponse2 "vr for 3" c8Env2).sent = some false) :=
  ⟨C8_dispatch_failure_amended.1 "vr at 5pm" none none none (some "Sure, booked!") 7 []
      { id := 1, system_prompt := some "p", auth_token := some "tok", origin := some "org"
        conversation_state := none } [] (some [1]) [] [] (some { success := false }) _ rfl
      (by decide) (by decide) (by decide),
    C8_dispatch_failure_amended.2 "vr for 3" "tok" "org" "p" "Sure, booked!" 7 [] []
      [1] [] [] (some "401") _ rfl (by decide) (by decide) (by decide) (by decide)⟩

/-! ## Claim C9: the history window -/

/-- Eleven stored turns, timestamps 0 to 10 — one more than the
responder's window limit. -/
def c9Rows : List HistRow :=
  [{ received_at := 0, content_text := some "m0", event_type := "MoMessage" },
   { received_at := 1, content_text := some "m1", event_type := "MoMessage" },
   { received_at := 2, content_text := some "m2", event_type := "MoMessage" },
   { received_at := 3, content_text := some "m3", event_type := "MoMessage" },
   { received_at := 4, content_text := some "m4", event_type := "MoMessage" },
   { received_at := 5, content_text := some "m5", event_type := "MoMessage" },
   { received_at := 6, content_text := some "m6", event_type := "MoMessage" },
   { received_at := 7, content_text := some "m7", event_type := "MoMessage" },
   { received_at := 8, content_text := some "m8", event_type := "MoMessage" },
   { received_at := 9, content_text := some "m9", event_type := "MoMessage" },
   { received_at := 10, content_text := some "m10", event_type := "MoMessage" }]

/-- First-responder environment holding the eleven turns. -/
def c9Env1 : WaEnv1 :=
  { fileIds := [7]
    mappingRows := [{ id := 1, system_prompt := some "p", auth_token := some "tok"
                      origin := some "org", conversation_state := none }]
    transcript := none
    embed := Outcome.ok (some [1])
    search := Outcome.ok []
    histRows := c9Rows
    llm := Outcome.ok (some "hello!")
    send := Outcome.ok (some { success := true }) }

/-- **C9 (code bug).**  With eleven stored turns, the history the
responder supplies to the generation collaborator is the ten OLDEST
turns (`.order("received_at", ascending).limit(10)` takes the first ten
of the ascending order), not the ten most recent ones the spec asks
for. -/
theorem C9_history_window_code_bug :
    (generateAutoResponse1 (some "one more") none none c9Env1).historySupplied =
        [("user", "m0"), ("user", "m1"), ("user", "m2"), ("user", "m3"), ("user", "m4"),
         ("user", "m5"), ("user", "m6"), ("user", "m7"), ("user", "m8"), ("user", "m9")] ∧
      (specRecentWindow c9Rows 10).map
          (fun r => ("user", r.content_text.getD "")) =
        [("user", "m1"), ("user", "m2"), ("user", "m3"), ("user", "m4"), ("user", "m5"),
         ("user", "m6"), ("user", "m7"), ("user", "m8"), ("user", "m9"), ("user", "m10")] ∧
      ¬ (generateAutoResponse1 (some "one more") none none c9Env1).historySupplied =
          (specRecentWindow c9Rows 10).map (fun r => ("user", r.content_text.getD "")) := by
  refine ⟨?_, ?_, ?_⟩ <;> decide

/-! ## Claim C10: the small-talk short-circuit -/

/-- **C10.**  A web-chat message that is small talk (its trimmed,
lowercased text is one of the fixed tokens — exactly what `isSmallTalk`
tests) is answered with the fixed greeting reply and status 200, with no
embedding, retrieval, history load or generation call. -/
theorem C10_small_talk_short_circuit (sid msg : String) (env : WebEnv)
    (hsid : sid ≠ "") (hst : isSmallTalk msg = true) :
    (webChatPOST sid msg env).status = 200 ∧
      (webChatPOST sid msg env).body = smallTalkReply ∧
      (webChatPOST sid msg env).embedCalled = false ∧
      (webChatPOST sid msg env).searchCalled = false ∧
      (webChatPOST sid msg env).historyLoaded = false ∧
      (webChatPOST sid msg env).generateCalled = false := by
  have hmsg : msg ≠ "" := by
    rintro rfl
    rw [show isSmallTalk "" = false from by decide] at hst
    exact absurd hst (by decide)
  unfold webChatPOST
  rw [if_neg (by simp [hsid, hmsg]), if_pos hst]
  exact ⟨rfl, rfl, rfl, rfl, rfl, rfl⟩

/-- A fully healthy web-route environment (which must stay unused). -/
def c10Env : WebEnv :=
  { embed := Outcome.ok (some [1])
    search := fun _ => Outcome.ok [{ chunk := "doc text" }]
    historyRows := [("user", "hi")]
    generate := Outcome.ok "should not be called" }

/-- Witness for C10 on the message `"  Thank You  "`. -/
theorem C10_small_talk_witness :
    (webChatPOST "sess1" "  Thank You  " c10Env).status = 200 ∧
      (webChatPOST "sess1" "  Thank You  " c10Env).body = smallTalkReply ∧
      (webChatPOST "sess1" "  Thank You  " c10Env).embedCalled = false ∧
      (webChatPOST "sess1" "  Thank You  " c10Env).searchCalled = false ∧
      (webChatPOST "sess1" "  Thank You  " c10Env).historyLoaded = false ∧
      (webChatPOST "sess1" "  Thank You  " c10Env).generateCalled = false :=
  C10_small_talk_short_circuit "sess1" "  Thank You  " c10Env (by decide) (by decide)

end NeonPanda
